import Mathlib

/-!
Verification of the Felicity battery local-API client
(`custom_components/felicity_battery/api.py`).

The payload parser `_parse_payload` is a pure function from the response
text to a Python dict (or a raised exception).  We embed it shallowly:

* the text is a `List Char` (`Chars`);
* each `re.search` call is embedded as a hand-written leftmost matcher for
  the concrete pattern appearing in the source.  All character classes in
  those patterns (`[-0-9]`, `[^"]`, `[0-9,\s-]`, `\s`) are disjoint from
  the literal that follows them in the pattern, so Python's greedy
  matching with backtracking coincides with plain maximal munch; the two
  optional groups (third `Batt` cell, second `BTemp` pair) are embedded
  with explicit ordered alternation, mirroring the regex engine's
  greedy-`?` backtracking;
* Python `int(...)` on a `[-0-9]+` token is `pyIntCore` (an optional
  leading minus followed by digits; anything else raises `ValueError`,
  embedded as `Except.error PyExc.valueError`);
* the produced dict is an association list `Record` built in the source's
  insertion order;
* the transport read loop of `_async_read_raw` is embedded as a pure
  function over the list of read outcomes (timeout / returned chunk).

Braces inside string literals are written with the escapes \x7b and \x7d,
and quote characters with \x22 / \x27, purely for lexical hygiene.
-/

namespace Felicity

abbrev Chars := List Char

/-- The whitespace class used by the payload's regexes (`\s`) and by
`str.strip` / `int`'s argument stripping, restricted to the ASCII
whitespace characters that can actually occur in an ASCII-decoded
response. -/
def isSp (c : Char) : Bool :=
  c == ' ' || c == '\t' || c == '\n' || c == '\r' || c == '\x0b' || c == '\x0c'

/-- Consume `\s*`: drop leading whitespace. -/
def skipSp : Chars → Chars
  | [] => []
  | c :: cs => if isSp c then skipSp cs else c :: cs

/-- Match a literal character sequence, returning the remainder. -/
def lit : Chars → Chars → Option Chars
  | [], s => some s
  | _ :: _, [] => none
  | p :: ps, c :: cs => if c = p then lit ps cs else none

/-- Character class `[-0-9]` of the integer-token pattern. -/
def isTokC (c : Char) : Bool := c == '\x2d' || c.isDigit

/-- Match `([-0-9]+)` greedily: the maximal nonempty run of `-`/digits,
returned together with the remainder. -/
def tokP (s : Chars) : Option (Chars × Chars) :=
  let t := s.takeWhile isTokC
  if t.isEmpty then none else some (t, s.dropWhile isTokC)

/-- Numeric value of a digit string. -/
def digitsToNat (l : Chars) : Nat :=
  l.foldl (fun a c => a * 10 + (c.toNat - 48)) 0

/-- Python `int(...)` on a string drawn from the character class
`[-0-9]` (no whitespace): succeeds exactly on `digits+` or `-digits+`,
otherwise raises `ValueError` (modelled as `none`). -/
def pyIntCore (l : Chars) : Option Int :=
  match l with
  | [] => none
  | '\x2d' :: rest =>
      if !rest.isEmpty && rest.all Char.isDigit then
        some (-(digitsToNat rest : Int))
      else none
  | _ =>
      if l.all Char.isDigit then some ((digitsToNat l : Int)) else none

/-- `str.strip()` (also the whitespace stripping Python `int` performs
on its argument). -/
def strip (l : Chars) : Chars :=
  ((l.dropWhile isSp).reverse.dropWhile isSp).reverse

/-- Python `str.split(",")`: split at every comma, keeping empty pieces. -/
def splitComma : Chars → List Chars
  | [] => [[]]
  | c :: rest =>
      let r := splitComma rest
      if c = ',' then [] :: r
      else
        match r with
        | [] => [[c]]
        | h :: t => (c :: h) :: t

/-- `re.search` semantics: try the pattern matcher at every start
position, left to right, returning the first success. -/
def search {α : Type} (p : Chars → Option α) : Chars → Option α
  | [] => p []
  | c :: cs =>
      match p (c :: cs) with
      | some a => some a
      | none => search p cs

/-- The exception Python `int()` raises on a malformed token. -/
inductive PyExc
  | valueError
deriving DecidableEq

/-- Matcher for the common anchor `"key"\s*:\s*`, returning the
remainder after the second `\s*`. -/
def keyAnchor (key : Chars) (s : Chars) : Option Chars := do
  let s ← lit (('\x22' :: key) ++ ['\x22']) s
  let s ← lit [':'] (skipSp s)
  pure (skipSp s)

/-- Matcher for `_find_int`'s pattern `"key"\s*:\s*([-0-9]+)` at one
position; yields the captured token. -/
def findIntAt (key : Chars) (s : Chars) : Option Chars := do
  let s ← keyAnchor key s
  let (t, _) ← tokP s
  pure t

/-- `_find_int`: leftmost search of `"key"\s*:\s*([-0-9]+)`, then
`int(...)` on the captured group (which may raise `ValueError`). -/
def findIntF (key : Chars) (n : Chars) : Except PyExc (Option Int) :=
  match search (findIntAt key) n with
  | none => .ok none
  | some t =>
      match pyIntCore t with
      | some v => .ok (some v)
      | none => .error PyExc.valueError

/-- Matcher for `_find_str`'s pattern `"key"\s*:\s*"([^"]*)"` at one
position; yields the captured string contents. -/
def findStrAt (key : Chars) (s : Chars) : Option Chars := do
  let s ← keyAnchor key s
  let s ← lit ['\x22'] s
  let v := s.takeWhile (fun c => c != '\x22')
  let s := s.dropWhile (fun c => c != '\x22')
  let _ ← lit ['\x22'] s
  pure v

/-- `_find_str`: leftmost search of `"key"\s*:\s*"([^"]*)"`. -/
def findStr (key : Chars) (n : Chars) : Option Chars :=
  search (findStrAt key) n

def kCommVer : Chars := ("CommVer").data
def kWifiSN : Chars := ("wifiSN").data
def kDevSN : Chars := ("DevSN").data
def kEstate : Chars := ("Estate").data
def kBfault : Chars := ("Bfault").data
def kBwarn : Chars := ("Bwarn").data
def kBatt : Chars := ("Batt").data
def kBatsoc : Chars := ("Batsoc").data
def kBMaxMin : Chars := ("BMaxMin").data
def kLVolCur : Chars := ("LVolCur").data
def kBTemp : Chars := ("BTemp").data
def kTemplist : Chars := ("Templist").data
def kBatcelList : Chars := ("BatcelList").data

def nullTok : Chars := ("null").data
def noneTok : Chars := ("None").data

/-- Fragment `([-0-9]+)\s*,\s*([-0-9]+)` starting at the current
position: two captured tokens separated by a comma. -/
def twoToks (s : Chars) : Option (Chars × Chars × Chars) := do
  let (a, s) ← tokP s
  let s ← lit [','] (skipSp s)
  let (b, s) ← tokP (skipSp s)
  pure (a, b, s)

/-- Fragment `\[\s*([-0-9]+)\s*\]` starting at the current position:
a bracketed single captured token. -/
def oneTokGroup (s : Chars) : Option (Chars × Chars) := do
  let s ← lit ['['] s
  let (t, s) ← tokP (skipSp s)
  let s ← lit [']'] (skipSp s)
  pure (t, s)

/-- Tail `\s*\]\s*\]` closing the `Batt` pattern. -/
def battClose (s : Chars) : Option Unit := do
  let s ← lit [']'] (skipSp s)
  let _ ← lit [']'] (skipSp s)
  pure ()

/-- The `(null|None|[-0-9]+)?\s*\]\s*\]` tail of the `Batt` pattern,
with the regex engine's ordered alternatives and greedy optional. -/
def battThird (t1 t2 : Chars) (s : Chars) : Option (Chars × Chars × Option Chars) :=
  (do let s2 ← lit nullTok s
      let _ ← battClose s2
      pure (t1, t2, some nullTok)) <|>
  (do let s2 ← lit noneTok s
      let _ ← battClose s2
      pure (t1, t2, some noneTok)) <|>
  (do let (t3, s2) ← tokP s
      let _ ← battClose s2
      pure (t1, t2, some t3)) <|>
  (do let _ ← battClose s
      pure (t1, t2, none))

/-- One-position matcher for the `Batt` pattern
`"Batt"\s*:\s*\[\s*\[\s*([-0-9]+)\s*\]\s*,\s*\[\s*([-0-9]+)\s*\]\s*,\s*\[\s*(null|None|[-0-9]+)?\s*\]\s*\]`. -/
def battAt (s : Chars) : Option (Chars × Chars × Option Chars) := do
  let s ← keyAnchor kBatt s
  let s ← lit ['['] s
  let (t1, s) ← oneTokGroup (skipSp s)
  let s ← lit [','] (skipSp s)
  let (t2, s) ← oneTokGroup (skipSp s)
  let s ← lit [','] (skipSp s)
  let s ← lit ['['] (skipSp s)
  battThird t1 t2 (skipSp s)

/-- `Batt` recognizer: regex search, then `int()` on the groups; the
third cell becomes `None` when the group is absent, `null`, `None`, or
empty (source lines 112–115). -/
def battField (n : Chars) : Except PyExc (Option (Int × Int × Option Int)) :=
  match search battAt n with
  | none => .ok none
  | some (t1, t2, th) =>
      match pyIntCore t1 with
      | none => .error PyExc.valueError
      | some v =>
          match pyIntCore t2 with
          | none => .error PyExc.valueError
          | some i =>
              match th with
              | none => .ok (some (v, i, none))
              | some cs =>
                  if cs = nullTok ∨ cs = noneTok ∨ cs = [] then
                    .ok (some (v, i, none))
                  else
                    match pyIntCore cs with
                    | none => .error PyExc.valueError
                    | some t => .ok (some (v, i, some t))

/-- One-position matcher for the `Batsoc` pattern
`"Batsoc"\s*:\s*\[\s*\[\s*([-0-9]+)\s*,\s*([-0-9]+)\s*,\s*([-0-9]+)\s*\]\s*\]`. -/
def batsocAt (s : Chars) : Option (Chars × Chars × Chars) := do
  let s ← keyAnchor kBatsoc s
  let s ← lit ['['] s
  let s ← lit ['['] (skipSp s)
  let (a, b, s) ← twoToks (skipSp s)
  let s ← lit [','] (skipSp s)
  let (c, s) ← tokP (skipSp s)
  let s ← lit [']'] (skipSp s)
  let _ ← lit [']'] (skipSp s)
  pure (a, b, c)

/-- `Batsoc` recognizer (soc, scale, capacity). -/
def batsocField (n : Chars) : Except PyExc (Option (Int × Int × Int)) :=
  match search batsocAt n with
  | none => .ok none
  | some (a, b, c) =>
      match pyIntCore a with
      | none => .error PyExc.valueError
      | some soc =>
          match pyIntCore b with
          | none => .error PyExc.valueError
          | some scale =>
              match pyIntCore c with
              | none => .error PyExc.valueError
              | some cap => .ok (some (soc, scale, cap))

/-- One-position matcher for the shared two-pair pattern of `BMaxMin`
and `LVolCur`:
`"key"\s*:\s*\[\s*\[\s*(T)\s*,\s*(T)\s*\]\s*,\s*\[\s*(T)\s*,\s*(T)\s*\]\s*\]`. -/
def quadAt (key : Chars) (s : Chars) : Option (Chars × Chars × Chars × Chars) := do
  let s ← keyAnchor key s
  let s ← lit ['['] s
  let s ← lit ['['] (skipSp s)
  let (a, b, s) ← twoToks (skipSp s)
  let s ← lit [']'] (skipSp s)
  let s ← lit [','] (skipSp s)
  let s ← lit ['['] (skipSp s)
  let (c, d, s) ← twoToks (skipSp s)
  let s ← lit [']'] (skipSp s)
  let _ ← lit [']'] (skipSp s)
  pure (a, b, c, d)

/-- Convert the four captured groups of a two-pair field. -/
def quadField (key : Chars) (n : Chars) : Except PyExc (Option (Int × Int × Int × Int)) :=
  match search (quadAt key) n with
  | none => .ok none
  | some (a, b, c, d) =>
      match pyIntCore a with
      | none => .error PyExc.valueError
      | some x1 =>
          match pyIntCore b with
          | none => .error PyExc.valueError
          | some x2 =>
              match pyIntCore c with
              | none => .error PyExc.valueError
              | some x3 =>
                  match pyIntCore d with
                  | none => .error PyExc.valueError
                  | some x4 => .ok (some (x1, x2, x3, x4))

/-- The `(?:\s*,\s*\[\s*(T)\s*,\s*(T)\s*\])?\s*\]` tail of the `BTemp`
pattern: greedy optional second pair, with fallback. -/
def btempTail (s : Chars) : Option (Option (Chars × Chars)) :=
  (do let s2 ← lit [','] (skipSp s)
      let s2 ← lit ['['] (skipSp s2)
      let (c, d, s2) ← twoToks (skipSp s2)
      let s2 ← lit [']'] (skipSp s2)
      let _ ← lit [']'] (skipSp s2)
      pure (some (c, d))) <|>
  (do let _ ← lit [']'] (skipSp s)
      pure none)

/-- One-position matcher for the primary `BTemp` pattern. -/
def btempAt (s : Chars) : Option (Chars × Chars × Option (Chars × Chars)) := do
  let s ← keyAnchor kBTemp s
  let s ← lit ['['] s
  let s ← lit ['['] (skipSp s)
  let (a, b, s) ← twoToks (skipSp s)
  let s ← lit [']'] (skipSp s)
  let r ← btempTail s
  pure (a, b, r)

/-- One-position matcher for the fallback pattern
`"Templist"\s*:\s*\[\s*\[\s*([-0-9]+)\s*,\s*([-0-9]+)\s*\]`. -/
def templistAt (s : Chars) : Option (Chars × Chars) := do
  let s ← keyAnchor kTemplist s
  let s ← lit ['['] s
  let s ← lit ['['] (skipSp s)
  let (a, b, s) ← twoToks (skipSp s)
  let _ ← lit [']'] (skipSp s)
  pure (a, b)

/-- Temperature recognizer (source lines 153–183): try the primary
`BTemp` pattern first; if it fails, fall back to the first two-integer
group of `Templist`. -/
def btempField (n : Chars) : Except PyExc (Option (List (List Int))) :=
  match search btempAt n with
  | some (ta, tb, rest) =>
      match pyIntCore ta with
      | none => .error PyExc.valueError
      | some t1 =>
          match pyIntCore tb with
          | none => .error PyExc.valueError
          | some t2 =>
              match rest with
              | some (tc, td) =>
                  match pyIntCore tc with
                  | none => .error PyExc.valueError
                  | some t3 =>
                      match pyIntCore td with
                      | none => .error PyExc.valueError
                      | some t4 => .ok (some [[t1, t2], [t3, t4]])
              | none => .ok (some [[t1, t2]])
  | none =>
      match search templistAt n with
      | none => .ok none
      | some (ta, tb) =>
          match pyIntCore ta with
          | none => .error PyExc.valueError
          | some t1 =>
              match pyIntCore tb with
              | none => .error PyExc.valueError
              | some t2 => .ok (some [[t1, t2]])

/-- Character class `[0-9,\s-]` of the `BatcelList` pattern. -/
def isCellC (c : Char) : Bool := c.isDigit || c == ',' || isSp c || c == '\x2d'

/-- One-position matcher for `"BatcelList"\s*:\s*\[\s*\[([0-9,\s-]+)\]`. -/
def batcelAt (s : Chars) : Option Chars := do
  let s ← keyAnchor kBatcelList s
  let s ← lit ['['] s
  let s ← lit ['['] (skipSp s)
  let t := s.takeWhile isCellC
  if t.isEmpty then none
  else do
    let _ ← lit [']'] (s.dropWhile isCellC)
    pure t

/-- `int(x)` on each comma-separated piece, left to right; any failure
aborts the whole list (caught by the source's `try`/`except`). -/
def cellsInts : List Chars → Option (List Int)
  | [] => some []
  | p :: ps =>
      match pyIntCore (strip p) with
      | none => none
      | some v =>
          match cellsInts ps with
          | none => none
          | some r => some (v :: r)

/-- `BatcelList` recognizer: regex search, split the captured group on
commas, parse each piece; a failed parse silently drops the field. -/
def batcelField (n : Chars) : Option (List Int) :=
  match search batcelAt n with
  | none => none
  | some cs =>
      match cellsInts (splitComma cs) with
      | none => none
      | some cells => some cells

/-- The outcomes of the recognizers, in source order. -/
structure ExtractRes where
  commVer : Option Int
  wifiSN : Option Chars
  devSN : Option Chars
  estate : Option Int
  bfault : Option Int
  bwarn : Option Int
  batt : Option (Int × Int × Option Int)
  batsoc : Option (Int × Int × Int)
  bmaxmin : Option (Int × Int × Int × Int)
  lvolcur : Option (Int × Int × Int × Int)
  btemp : Option (List (List Int))
  batcel : Option (List Int)
deriving DecidableEq

/-- Run all recognizers of `_parse_payload` on the normalized text.  In
the source they run sequentially and an uncaught `ValueError` aborts the
whole call; since `PyExc` has a single value, propagating the first
error is the same as erroring whenever any recognizer errors. -/
def runRecognizers (n : Chars) : Except PyExc ExtractRes :=
  match findIntF kCommVer n, findIntF kEstate n, findIntF kBfault n, findIntF kBwarn n,
        battField n, batsocField n, quadField kBMaxMin n, quadField kLVolCur n,
        btempField n with
  | .ok cv, .ok es, .ok bf, .ok bw, .ok ba, .ok bs, .ok bm, .ok lv, .ok bt =>
      .ok ⟨cv, findStr kWifiSN n, findStr kDevSN n, es, bf, bw, ba, bs, bm, lv, bt,
           batcelField n⟩
  | _, _, _, _, _, _, _, _, _ => .error PyExc.valueError

/-- A value of the result dict: Python `None`, an int, a string, or a
nested array of (possibly null) ints. -/
inductive FVal
  | vnone
  | vint (n : Int)
  | vstr (s : Chars)
  | varr (a : List (List (Option Int)))
deriving DecidableEq

/-- The result dict, as an association list in insertion order. -/
abbrev Record := List (String × FVal)

/-- Dict lookup. -/
def lookupR : Record → String → Option FVal
  | [], _ => none
  | (k, v) :: rest, key => if k = key then some v else lookupR rest key

/-- Python `key in result`. -/
def containsKey (r : Record) (k : String) : Bool :=
  (lookupR r k).isSome

/-- A conditionally-inserted dict entry (inserted only when the
recognizer matched). -/
def optEntry (k : String) (o : Option FVal) : Record :=
  match o with
  | some v => [(k, v)]
  | none => []

def ofInt (o : Option Int) : FVal :=
  match o with
  | some n => .vint n
  | none => .vnone

def ofStrC (o : Option Chars) : FVal :=
  match o with
  | some s => .vstr s
  | none => .vnone

def battVal (t : Int × Int × Option Int) : FVal :=
  .varr [[some t.1], [some t.2.1], [t.2.2]]

def batsocVal (t : Int × Int × Int) : FVal :=
  .varr [[some t.1, some t.2.1, some t.2.2]]

def quadVal (t : Int × Int × Int × Int) : FVal :=
  .varr [[some t.1, some t.2.1], [some t.2.2.1, some t.2.2.2]]

def btempVal (g : List (List Int)) : FVal :=
  .varr (g.map (fun p => p.map some))

def batcelVal (cs : List Int) : FVal :=
  .varr [cs.map some]

/-- Build the result dict in the source's insertion order: the six
scalar fields are always assigned (`Bwarn` via `_find_int("Bwarn") or 0`);
the grouped fields are assigned only when their recognizer matched. -/
def buildRecord (er : ExtractRes) : Record :=
  ("CommVer", ofInt er.commVer) ::
  ("wifiSN", ofStrC er.wifiSN) ::
  ("DevSN", ofStrC er.devSN) ::
  ("Estate", ofInt er.estate) ::
  ("Bfault", ofInt er.bfault) ::
  ("Bwarn", .vint (er.bwarn.getD 0)) ::
  (optEntry ("Batt") (er.batt.map battVal) ++
    (optEntry ("Batsoc") (er.batsoc.map batsocVal) ++
      (optEntry ("BMaxMin") (er.bmaxmin.map quadVal) ++
        (optEntry ("LVolCur") (er.lvolcur.map quadVal) ++
          (optEntry ("BTemp") (er.btemp.map btempVal) ++
            optEntry ("BatcelList") (er.batcel.map batcelVal))))))

/-- `text.replace("'", '"')` — unconditional single-to-double-quote
replacement (source line 80). -/
def replQuotes (l : Chars) : Chars :=
  l.map (fun c => if c = '\x27' then '\x22' else c)

/-- Truncate after the last closing brace (`rfind` + slice, source
lines 82–84); text without a closing brace is left unchanged. -/
def truncAfterBrace (l : Chars) : Chars :=
  if l.contains '\x7d' then (l.reverse.dropWhile (fun c => c != '\x7d')).reverse
  else l

/-- The whole normalization of `_parse_payload` (source lines 79–84). -/
def normalizeChars (l : Chars) : Chars :=
  truncAfterBrace (replQuotes l)

/-- The distinct failure kinds of the client, one per `raise` site:
connection failure, talk failure, the empty-response check, the
essential-fields check (which formats the *original* input text into the
message), and an uncaught Python `ValueError` escaping `int()`. -/
inductive FelErr
  | connectionFailed
  | talkFailed
  | emptyResponse
  | parseFailed (text : String)
  | valueError
deriving DecidableEq

/-- `_parse_payload`: normalize, run the recognizers, build the dict,
and reject it when neither `Batsoc` nor `Batt` was extracted. -/
def parsePayload (text : String) : Except FelErr Record :=
  match runRecognizers (normalizeChars text.data) with
  | .error _ => .error FelErr.valueError
  | .ok er =>
      if !containsKey (buildRecord er) ("Batsoc") && !containsKey (buildRecord er) ("Batt") then
        .error (FelErr.parseFailed text)
      else
        .ok (buildRecord er)

/-- Outcome of one `reader.read(1024)` attempt under `wait_for`:
either the 0.5 s timeout fired, or a chunk of bytes arrived (an empty
chunk means the peer closed). -/
inductive ReadEvt
  | timeout
  | chunk (bytes : List Nat)

/-- The bounded accumulation loop of `_async_read_raw` (source lines
40–53): at most `fuel` (= 10) attempts; stop on timeout, on an empty
chunk, or after a chunk containing a closing-brace byte (125). -/
def readAccum : Nat → List ReadEvt → List Nat
  | 0, _ => []
  | _ + 1, [] => []
  | n + 1, e :: rest =>
      match e with
      | .timeout => []
      | .chunk bs =>
          if bs.isEmpty then []
          else if bs.contains 125 then bs
          else bs ++ readAccum n rest

/-- `data.decode("ascii", errors="ignore")`: non-ASCII bytes are
dropped. -/
def decodeAscii (bs : List Nat) : Chars :=
  (bs.filter (fun b => b < 128)).map Char.ofNat

/-- `_async_read_raw` after a successful connect and write, as a
function of the read outcomes: fail with the empty-response error when
the loop accumulated nothing, else decode and strip. -/
def asyncReadRaw (evts : List ReadEvt) : Except FelErr String :=
  if (readAccum 10 evts).isEmpty then .error FelErr.emptyResponse
  else .ok (String.mk (strip (decodeAscii (readAccum 10 evts))))

/-- `async_get_data`: read, then parse. -/
def asyncGetData (evts : List ReadEvt) : Except FelErr Record :=
  match asyncReadRaw evts with
  | .error e => .error e
  | .ok t => parsePayload t

end Felicity

deriving instance DecidableEq for Except

namespace Felicity

/-- A successful recognizer pass determines each component of the
outcome. -/
theorem runRec_inv {n : Chars} {er : ExtractRes}
    (h : runRecognizers n = .ok er) :
    findIntF kCommVer n = .ok er.commVer ∧
    er.wifiSN = findStr kWifiSN n ∧
    er.devSN = findStr kDevSN n ∧
    findIntF kEstate n = .ok er.estate ∧
    findIntF kBfault n = .ok er.bfault ∧
    findIntF kBwarn n = .ok er.bwarn ∧
    battField n = .ok er.batt ∧
    batsocField n = .ok er.batsoc ∧
    quadField kBMaxMin n = .ok er.bmaxmin ∧
    quadField kLVolCur n = .ok er.lvolcur ∧
    btempField n = .ok er.btemp ∧
    er.batcel = batcelField n := by
  unfold runRecognizers at h
  split at h
  · injection h with h
    subst h
    simp_all
  · simp at h

/-- Value of each key of the built dict in terms of the recognizer
outcomes. -/
theorem lookupR_buildRecord (er : ExtractRes) :
    lookupR (buildRecord er) ("CommVer") = some (ofInt er.commVer) ∧
    lookupR (buildRecord er) ("wifiSN") = some (ofStrC er.wifiSN) ∧
    lookupR (buildRecord er) ("DevSN") = some (ofStrC er.devSN) ∧
    lookupR (buildRecord er) ("Estate") = some (ofInt er.estate) ∧
    lookupR (buildRecord er) ("Bfault") = some (ofInt er.bfault) ∧
    lookupR (buildRecord er) ("Bwarn") = some (.vint (er.bwarn.getD 0)) ∧
    lookupR (buildRecord er) ("Batt") = er.batt.map battVal ∧
    lookupR (buildRecord er) ("Batsoc") = er.batsoc.map batsocVal ∧
    lookupR (buildRecord er) ("BMaxMin") = er.bmaxmin.map quadVal ∧
    lookupR (buildRecord er) ("LVolCur") = er.lvolcur.map quadVal ∧
    lookupR (buildRecord er) ("BTemp") = er.btemp.map btempVal ∧
    lookupR (buildRecord er) ("BatcelList") = er.batcel.map batcelVal := by
  obtain ⟨cv, ws, ds, es, bf, bw, ba, bs, bm, lv, bt, bc⟩ := er
  cases ba <;> cases bs <;> cases bm <;> cases lv <;> cases bt <;> cases bc <;>
    simp [buildRecord, optEntry, lookupR]

theorem containsKey_batsoc (er : ExtractRes) :
    containsKey (buildRecord er) ("Batsoc") = er.batsoc.isSome := by
  rw [containsKey, (lookupR_buildRecord er).2.2.2.2.2.2.2.1]
  cases hb : er.batsoc <;> simp

theorem containsKey_batt (er : ExtractRes) :
    containsKey (buildRecord er) ("Batt") = er.batt.isSome := by
  rw [containsKey, (lookupR_buildRecord er).2.2.2.2.2.2.1]
  cases hb : er.batt <;> simp

/-- A record is returned only via a successful recognizer pass, and it
is exactly the built dict. -/
theorem parsePayload_ok_inv {t : String} {r : Record}
    (h : parsePayload t = .ok r) :
    ∃ er, runRecognizers (normalizeChars t.data) = .ok er ∧ r = buildRecord er := by
  unfold parsePayload at h
  cases hr : runRecognizers (normalizeChars t.data) with
  | error e => rw [hr] at h; simp at h
  | ok er =>
      rw [hr] at h
      refine ⟨er, rfl, ?_⟩
      split at h
      · next heq => exact absurd heq (by simp)
      · next er2 heq =>
          injection heq with heq
          subst heq
          split at h
          · simp at h
          · injection h with h
            exact h.symm

/-- If the recognizer pass succeeds and extracted `Batsoc` or `Batt`,
the call returns the built dict. -/
theorem parsePayload_accepts {t : String} {er : ExtractRes}
    (h : runRecognizers (normalizeChars t.data) = .ok er)
    (hess : er.batsoc.isSome ∨ er.batt.isSome) :
    parsePayload t = .ok (buildRecord er) := by
  have hc : (!containsKey (buildRecord er) ("Batsoc") &&
      !containsKey (buildRecord er) ("Batt")) = false := by
    rw [containsKey_batsoc, containsKey_batt]
    rcases hess with hs | hb
    · rw [hs]; simp
    · rw [hb]; simp
  unfold parsePayload
  rw [h]
  simp [hc]

/-- If the recognizer pass succeeds but extracted neither `Batsoc` nor
`Batt`, the call fails with the essential-fields error, whose message
embeds the original input text. -/
theorem parsePayload_rejects {t : String} {er : ExtractRes}
    (h : runRecognizers (normalizeChars t.data) = .ok er)
    (hs : er.batsoc = none) (hb : er.batt = none) :
    parsePayload t = .error (FelErr.parseFailed t) := by
  have hc : (!containsKey (buildRecord er) ("Batsoc") &&
      !containsKey (buildRecord er) ("Batt")) = true := by
    rw [containsKey_batsoc, containsKey_batt, hs, hb]
    simp
  unfold parsePayload
  rw [h]
  simp [hc]

/-- The essential-fields error always carries the original input text. -/
theorem parseFailed_carries_input {t s : String}
    (h : parsePayload t = .error (FelErr.parseFailed s)) : s = t := by
  unfold parsePayload at h
  cases hr : runRecognizers (normalizeChars t.data) with
  | error e => rw [hr] at h; simp at h
  | ok er =>
      rw [hr] at h
      split at h
      · next heq => exact absurd h (by simp)
      · next er2 heq =>
          split at h
          · injection h with h
            injection h with h
            exact h.symm
          · simp at h

/-- C1: for every response text, `_parse_payload` returns a record only
when at least one essential group (`Batsoc` or `Batt`) was extracted;
when the recognizer pass extracted `Batsoc` but not `Batt` the record is
accepted; when it extracted neither, the call fails with the
essential-fields (`ParseFailed`) error and no record is returned. -/
theorem c1_parse_requires_essential_group :
    (∀ (t : String) (r : Record), parsePayload t = .ok r →
        containsKey r ("Batsoc") = true ∨ containsKey r ("Batt") = true) ∧
    (∀ (t : String) (er : ExtractRes),
        runRecognizers (normalizeChars t.data) = .ok er →
        er.batsoc.isSome = true → er.batt = none →
        parsePayload t = .ok (buildRecord er)) ∧
    (∀ (t : String) (er : ExtractRes),
        runRecognizers (normalizeChars t.data) = .ok er →
        er.batsoc = none → er.batt = none →
        parsePayload t = .error (FelErr.parseFailed t)) := by
  refine ⟨?_, ?_, ?_⟩
  · intro t r h
    obtain ⟨er, hrun, hre⟩ := parsePayload_ok_inv h
    by_cases hs : er.batsoc = none
    · by_cases hb : er.batt = none
      · rw [parsePayload_rejects hrun hs hb] at h
        exact absurd h (by simp)
      · right
        rw [hre, containsKey_batt]
        exact Option.isSome_iff_ne_none.mpr hb
    · left
      rw [hre, containsKey_batsoc]
      exact Option.isSome_iff_ne_none.mpr hs
  · intro t er hrun hsome _
    exact parsePayload_accepts hrun (Or.inl hsome)
  · intro t er hrun hs hb
    exact parsePayload_rejects hrun hs hb

/-- C1 witness: a `Batsoc`-only payload is accepted and satisfies the
essential-key disjunction; a payload with neither group fails with the
essential-fields error. -/
theorem c1_parse_requires_essential_group_witness :
    (containsKey (buildRecord ⟨none, none, none, none, none, none, none,
        some (9900, 1000, 250000), none, none, none, none⟩) ("Batsoc") = true ∨
      containsKey (buildRecord ⟨none, none, none, none, none, none, none,
        some (9900, 1000, 250000), none, none, none, none⟩) ("Batt") = true) ∧
    parsePayload "\x7b\x22Batsoc\x22:[[9900,1000,250000]]\x7d" =
      .ok (buildRecord ⟨none, none, none, none, none, none, none,
        some (9900, 1000, 250000), none, none, none, none⟩) ∧
    parsePayload "\x7b\x22CommVer\x22:3\x7d" =
      .error (FelErr.parseFailed "\x7b\x22CommVer\x22:3\x7d") := by
  have h2 : parsePayload "\x7b\x22Batsoc\x22:[[9900,1000,250000]]\x7d" =
      .ok (buildRecord ⟨none, none, none, none, none, none, none,
        some (9900, 1000, 250000), none, none, none, none⟩) :=
    c1_parse_requires_essential_group.2.1 _ _ (by decide) (by decide) (by decide)
  exact ⟨c1_parse_requires_essential_group.1 _ _ h2, h2,
    c1_parse_requires_essential_group.2.2 _
      ⟨some 3, none, none, none, none, none, none, none, none, none, none, none⟩
      (by decide) (by decide) (by decide)⟩

/-- C2 counterexample: for the input text `{"Bfault":0[[140,130]]}`,
normalization does NOT insert a missing temperature field name — it
leaves the text unchanged — the temperature recognizer extracts
nothing, and the parse outcome differs from that of
`{"Bfault":0,"BTemp":[[140,130]]}`. -/
theorem c2_counterexample_no_field_insertion :
    normalizeChars (("\x7b\x22Bfault\x22:0[[140,130]]\x7d").data) =
      ("\x7b\x22Bfault\x22:0[[140,130]]\x7d").data ∧
    btempField (normalizeChars (("\x7b\x22Bfault\x22:0[[140,130]]\x7d").data)) = .ok none ∧
    parsePayload "\x7b\x22Bfault\x22:0[[140,130]]\x7d" ≠
      parsePayload "\x7b\x22Bfault\x22:0,\x22BTemp\x22:[[140,130]]\x7d" := by decide

/-- C2 amended: normalization performs no temperature-field-name
insertion.  On `{"Bfault":0[[140,130]]}` the text is unchanged, the
temperature recognizer extracts nothing, and parsing fails with the
essential-fields error; on `{"Bfault":0,"BTemp":[[140,130]]}` the
temperature recognizer does extract `[[140,130]]`, yet parsing fails
with the essential-fields error as well, since neither payload contains
an essential group. -/
theorem c2_no_insertion_both_fail :
    parsePayload "\x7b\x22Bfault\x22:0[[140,130]]\x7d" =
      .error (FelErr.parseFailed "\x7b\x22Bfault\x22:0[[140,130]]\x7d") ∧
    btempField (normalizeChars (("\x7b\x22Bfault\x22:0,\x22BTemp\x22:[[140,130]]\x7d").data)) =
      .ok (some [[140, 130]]) ∧
    parsePayload "\x7b\x22Bfault\x22:0,\x22BTemp\x22:[[140,130]]\x7d" =
      .error (FelErr.parseFailed "\x7b\x22Bfault\x22:0,\x22BTemp\x22:[[140,130]]\x7d") := by decide

/-- C3: the single-quoted example text normalizes and parses to exactly
the record with `CommVer = 3`, `Batsoc = [[9900,1000,250000]]`,
`Bfault = 0`, `Bwarn` defaulted to `0`, `BTemp = [[140,130]]`, and the
remaining scalar fields present with the explicit no-value marker. -/
theorem c3_single_quoted_example_parses :
    parsePayload "\x7b\x27CommVer\x27:3,\x27Batsoc\x27:[[9900,1000,250000]],\x27Bfault\x27:0,\x27BTemp\x27:[[140,130]]\x7d" =
      .ok [("CommVer", FVal.vint 3), ("wifiSN", FVal.vnone), ("DevSN", FVal.vnone),
           ("Estate", FVal.vnone), ("Bfault", FVal.vint 0), ("Bwarn", FVal.vint 0),
           ("Batsoc", FVal.varr [[some 9900, some 1000, some 250000]]),
           ("BTemp", FVal.varr [[some 140, some 130]])] := by decide

/-- C4 counterexample: an input that already uses double quotes as
delimiters and contains a single quote inside a double-quoted string
value is NOT left unchanged by the single-quote step: the quote in
`O'Brien` is rewritten, and the parsed record's `wifiSN` is truncated
to `O`. -/
theorem c4_counterexample_not_conditional :
    ("\x7b\x22wifiSN\x22:\x22O\x27Brien\x22,\x22Batsoc\x22:[[1,2,3]]\x7d").data.contains '\x22' = true ∧
    replQuotes (("\x7b\x22wifiSN\x22:\x22O\x27Brien\x22,\x22Batsoc\x22:[[1,2,3]]\x7d").data) ≠
      ("\x7b\x22wifiSN\x22:\x22O\x27Brien\x22,\x22Batsoc\x22:[[1,2,3]]\x7d").data ∧
    parsePayload "\x7b\x22wifiSN\x22:\x22O\x27Brien\x22,\x22Batsoc\x22:[[1,2,3]]\x7d" =
      .ok [("CommVer", FVal.vnone), ("wifiSN", FVal.vstr (("O").data)),
           ("DevSN", FVal.vnone), ("Estate", FVal.vnone), ("Bfault", FVal.vnone),
           ("Bwarn", FVal.vint 0),
           ("Batsoc", FVal.varr [[some 1, some 2, some 3]])] := by decide

/-- C4 amended: the single-quote replacement step is unconditional: on
every input it rewrites every single quote to a double quote (so its
output never contains a single quote), and it changes nothing on inputs
that contain no single quote. -/
theorem c4_replace_unconditional :
    (∀ l : Chars, '\x27' ∉ replQuotes l) ∧
    (∀ l : Chars, '\x27' ∉ l → replQuotes l = l) := by
  constructor
  · intro l hmem
    rw [replQuotes] at hmem
    rcases List.mem_map.mp hmem with ⟨c, _, he⟩
    by_cases h : c = '\x27'
    · rw [if_pos h] at he
      exact absurd he (by decide)
    · rw [if_neg h] at he
      exact h he
  · intro l h
    induction l with
    | nil => rfl
    | cons c cs ih =>
        simp only [List.mem_cons, not_or] at h
        have hc : ¬(c = '\x27') := fun hcc => h.1 hcc.symm
        calc replQuotes (c :: cs)
            = (if c = '\x27' then '\x22' else c) :: replQuotes cs := rfl
          _ = c :: replQuotes cs := by rw [if_neg hc]
          _ = c :: cs := by rw [ih h.2]

/-- C4 amended witness: the replaced text of a single-quoted payload
has no single quote left, and a quote-free text is unchanged. -/
theorem c4_replace_unconditional_witness :
    '\x27' ∉ replQuotes (("\x7b\x27x\x27:1\x7d").data) ∧
    replQuotes (("abc").data) = ("abc").data :=
  ⟨c4_replace_unconditional.1 _, c4_replace_unconditional.2 _ (by decide)⟩

/-- C6: a fetch whose read loop exits with zero bytes accumulated fails
with the empty-response error and returns no record; the parse step is
never reached (the outcome is fixed independently of any parsing). -/
theorem c6_empty_read_fails (evts : List ReadEvt)
    (h : readAccum 10 evts = []) :
    asyncGetData evts = .error FelErr.emptyResponse ∧
    ∀ r : Record, asyncGetData evts ≠ .ok r := by
  have hr : asyncReadRaw evts = .error FelErr.emptyResponse := by
    unfold asyncReadRaw
    rw [h]
    rfl
  have hg : asyncGetData evts = .error FelErr.emptyResponse := by
    unfold asyncGetData
    rw [hr]
  refine ⟨hg, fun r hc => ?_⟩
  rw [hg] at hc
  exact absurd hc (by simp)

/-- C6 witness: a first-read timeout yields the empty-response error. -/
theorem c6_empty_read_fails_witness :
    asyncGetData [ReadEvt.timeout] = .error FelErr.emptyResponse :=
  (c6_empty_read_fails [ReadEvt.timeout] (by decide)).1

/-- C7 counterexample: on `{'x':1}` normalization changes the text, the
parse fails for lack of both essential groups, and the error carries
the ORIGINAL text `{'x':1}`, not the normalized text. -/
theorem c7_counterexample_error_carries_raw :
    parsePayload "\x7b\x27x\x27:1\x7d" = .error (FelErr.parseFailed "\x7b\x27x\x27:1\x7d") ∧
    String.mk (normalizeChars (("\x7b\x27x\x27:1\x7d").data)) ≠ "\x7b\x27x\x27:1\x7d" := by decide

/-- C7 amended: whenever the parse step fails for lack of both
essential field groups, the error carries the original input text
(before normalization), for every input. -/
theorem c7_parsefailed_carries_original (t s : String)
    (h : parsePayload t = .error (FelErr.parseFailed s)) : s = t :=
  parseFailed_carries_input h

/-- C7 amended witness: concrete instance at `{'x':1}`. -/
theorem c7_parsefailed_carries_original_witness :
    ("\x7b\x27x\x27:1\x7d" : String) = "\x7b\x27x\x27:1\x7d" :=
  c7_parsefailed_carries_original _ _ (by decide)

/-- C9: the extraction step is a deterministic pure function: two
successful parses of the same text yield identical records. -/
theorem c9_parse_deterministic (t : String) (r₁ r₂ : Record)
    (h₁ : parsePayload t = .ok r₁) (h₂ : parsePayload t = .ok r₂) :
    r₁ = r₂ := by
  rw [h₁] at h₂
  exact Except.ok.inj h₂

/-- C9 witness: concrete instance on a `Batsoc`-only payload. -/
theorem c9_parse_deterministic_witness :
    (buildRecord ⟨none, none, none, none, none, none, none,
      some (9900, 1000, 250000), none, none, none, none⟩ : Record) =
    buildRecord ⟨none, none, none, none, none, none, none,
      some (9900, 1000, 250000), none, none, none, none⟩ :=
  c9_parse_deterministic "\x7b\x22Batsoc\x22:[[9900,1000,250000]]\x7d" _ _
    (by decide) (by decide)

/-- When the primary temperature pattern fails and the fallback matches,
the temperature recognizer is determined by the fallback's two captured
tokens. -/
theorem btempField_of_fallback {n ta tb : Chars}
    (hprim : search btempAt n = none)
    (hfall : search templistAt n = some (ta, tb)) :
    btempField n =
      (match pyIntCore ta with
       | none => .error PyExc.valueError
       | some t1 =>
           match pyIntCore tb with
           | none => .error PyExc.valueError
           | some t2 => .ok (some [[t1, t2]])) := by
  unfold btempField
  rw [hprim, hfall]

/-- C5: for every text on which the primary temperature recognizer
fails while the temperature-list fallback captures a two-token group,
any successfully returned record maps `BTemp` to the single pair built
from that group's two integers. -/
theorem c5_templist_fallback (t : String) (r : Record) (ta tb : Chars)
    (hok : parsePayload t = .ok r)
    (hprim : search btempAt (normalizeChars t.data) = none)
    (hfall : search templistAt (normalizeChars t.data) = some (ta, tb)) :
    ∃ a b : Int, pyIntCore ta = some a ∧ pyIntCore tb = some b ∧
      lookupR r ("BTemp") = some (FVal.varr [[some a, some b]]) := by
  obtain ⟨er, hrun, hre⟩ := parsePayload_ok_inv hok
  have hbt := (runRec_inv hrun).2.2.2.2.2.2.2.2.2.2.1
  rw [btempField_of_fallback hprim hfall] at hbt
  cases hpa : pyIntCore ta with
  | none => rw [hpa] at hbt; exact absurd hbt (by simp)
  | some a =>
      rw [hpa] at hbt
      cases hpb : pyIntCore tb with
      | none => rw [hpb] at hbt; exact absurd hbt (by simp)
      | some b =>
          rw [hpb] at hbt
          have hb2 : er.btemp = some [[a, b]] := (Except.ok.inj hbt).symm
          refine ⟨a, b, rfl, rfl, ?_⟩
          rw [hre, (lookupR_buildRecord er).2.2.2.2.2.2.2.2.2.2.1, hb2]
          rfl

/-- C5 witness: a payload with `Batsoc` (so the parse succeeds) and a
`Templist` but no `BTemp` yields the temperature pair `[[140,130]]`. -/
theorem c5_templist_fallback_witness :
    ∃ a b : Int,
      pyIntCore (("140").data) = some a ∧ pyIntCore (("130").data) = some b ∧
      lookupR (buildRecord ⟨none, none, none, none, none, none, none,
          some (1, 2, 3), none, none, some [[140, 130]], none⟩) ("BTemp") =
        some (FVal.varr [[some a, some b]]) :=
  c5_templist_fallback
    "\x7b\x22Batsoc\x22:[[1,2,3]],\x22Templist\x22:[[140,130],[0,2]]\x7d"
    _ (("140").data) (("130").data) (by decide) (by decide) (by decide)

/-- C8: in every successfully returned record, a missing or unmatched
`Bwarn` is mapped to the integer 0 (not the no-value marker), and a
`Bwarn` matched with integer value `n` is mapped to `n`. -/
theorem c8_bwarn_defaults_to_zero (t : String) (r : Record)
    (hok : parsePayload t = .ok r) :
    (findIntF kBwarn (normalizeChars t.data) = .ok none →
        lookupR r ("Bwarn") = some (FVal.vint 0)) ∧
    (∀ n : Int, findIntF kBwarn (normalizeChars t.data) = .ok (some n) →
        lookupR r ("Bwarn") = some (FVal.vint n)) := by
  obtain ⟨er, hrun, hre⟩ := parsePayload_ok_inv hok
  have hbw := (runRec_inv hrun).2.2.2.2.2.1
  have hlw := (lookupR_buildRecord er).2.2.2.2.2.1
  constructor
  · intro h
    rw [h] at hbw
    have hb2 : (none : Option Int) = er.bwarn := Except.ok.inj hbw
    rw [hre, hlw, ← hb2]
    rfl
  · intro n h
    rw [h] at hbw
    have hb2 : (some n : Option Int) = er.bwarn := Except.ok.inj hbw
    rw [hre, hlw, ← hb2]
    rfl

/-- C8 witness: without `Bwarn` the record maps it to 0; with
`"Bwarn":7` it maps it to 7. -/
theorem c8_bwarn_defaults_to_zero_witness :
    lookupR (buildRecord ⟨none, none, none, none, none, none, none,
        some (1, 2, 3), none, none, none, none⟩) ("Bwarn") =
      some (FVal.vint 0) ∧
    lookupR (buildRecord ⟨none, none, none, none, none, some 7, none,
        some (1, 2, 3), none, none, none, none⟩) ("Bwarn") =
      some (FVal.vint 7) :=
  ⟨(c8_bwarn_defaults_to_zero "\x7b\x22Batsoc\x22:[[1,2,3]]\x7d" _
      (by decide)).1 (by decide),
   (c8_bwarn_defaults_to_zero "\x7b\x22Batsoc\x22:[[1,2,3]],\x22Bwarn\x22:7\x7d" _
      (by decide)).2 7 (by decide)⟩

/-- C10: every successfully returned record contains all six scalar
keys; an unmatched scalar is present with the no-value marker (except
`Bwarn`, present as 0); a grouped key whose structural match failed is
omitted entirely; and a present grouped key is never the no-value
marker. -/
theorem c10_scalar_present_groups_omitted (t : String) (r : Record)
    (hok : parsePayload t = .ok r) :
    (containsKey r ("CommVer") = true ∧ containsKey r ("wifiSN") = true ∧
     containsKey r ("DevSN") = true ∧ containsKey r ("Estate") = true ∧
     containsKey r ("Bfault") = true ∧ containsKey r ("Bwarn") = true) ∧
    (findIntF kCommVer (normalizeChars t.data) = .ok none →
        lookupR r ("CommVer") = some FVal.vnone) ∧
    (findStr kWifiSN (normalizeChars t.data) = none →
        lookupR r ("wifiSN") = some FVal.vnone) ∧
    (findStr kDevSN (normalizeChars t.data) = none →
        lookupR r ("DevSN") = some FVal.vnone) ∧
    (findIntF kEstate (normalizeChars t.data) = .ok none →
        lookupR r ("Estate") = some FVal.vnone) ∧
    (findIntF kBfault (normalizeChars t.data) = .ok none →
        lookupR r ("Bfault") = some FVal.vnone) ∧
    (findIntF kBwarn (normalizeChars t.data) = .ok none →
        lookupR r ("Bwarn") = some (FVal.vint 0)) ∧
    (battField (normalizeChars t.data) = .ok none →
        lookupR r ("Batt") = none) ∧
    (batsocField (normalizeChars t.data) = .ok none →
        lookupR r ("Batsoc") = none) ∧
    (quadField kBMaxMin (normalizeChars t.data) = .ok none →
        lookupR r ("BMaxMin") = none) ∧
    (quadField kLVolCur (normalizeChars t.data) = .ok none →
        lookupR r ("LVolCur") = none) ∧
    (btempField (normalizeChars t.data) = .ok none →
        lookupR r ("BTemp") = none) ∧
    (batcelField (normalizeChars t.data) = none →
        lookupR r ("BatcelList") = none) ∧
    (∀ k, k ∈ [("Batt" : String), "Batsoc", "BMaxMin", "LVolCur", "BTemp", "BatcelList"] →
        ∀ v, lookupR r k = some v → v ≠ FVal.vnone) := by
  obtain ⟨er, hrun, hre⟩ := parsePayload_ok_inv hok
  obtain ⟨hcv, hws, hds, hes, hbf, hbw, hba, hbs, hbm, hlv, hbt, hbc⟩ := runRec_inv hrun
  obtain ⟨lcv, lws, lds, les, lbf, lbw, lba, lbs, lbm, llv, lbt, lbc⟩ :=
    lookupR_buildRecord er
  subst hre
  refine ⟨⟨?_, ?_, ?_, ?_, ?_, ?_⟩, ?_, ?_, ?_, ?_, ?_, ?_, ?_, ?_, ?_, ?_, ?_, ?_, ?_⟩
  · simp [containsKey, lcv]
  · simp [containsKey, lws]
  · simp [containsKey, lds]
  · simp [containsKey, les]
  · simp [containsKey, lbf]
  · simp [containsKey, lbw]
  · intro h
    rw [h] at hcv
    rw [lcv, ← Except.ok.inj hcv]
    rfl
  · intro h
    rw [h] at hws
    rw [lws, hws]
    rfl
  · intro h
    rw [h] at hds
    rw [lds, hds]
    rfl
  · intro h
    rw [h] at hes
    rw [les, ← Except.ok.inj hes]
    rfl
  · intro h
    rw [h] at hbf
    rw [lbf, ← Except.ok.inj hbf]
    rfl
  · intro h
    rw [h] at hbw
    rw [lbw, ← Except.ok.inj hbw]
    rfl
  · intro h
    rw [h] at hba
    rw [lba, ← Except.ok.inj hba]
    rfl
  · intro h
    rw [h] at hbs
    rw [lbs, ← Except.ok.inj hbs]
    rfl
  · intro h
    rw [h] at hbm
    rw [lbm, ← Except.ok.inj hbm]
    rfl
  · intro h
    rw [h] at hlv
    rw [llv, ← Except.ok.inj hlv]
    rfl
  · intro h
    rw [h] at hbt
    rw [lbt, ← Except.ok.inj hbt]
    rfl
  · intro h
    rw [h] at hbc
    rw [lbc, hbc]
    rfl
  · intro k hk v hv
    simp only [List.mem_cons, List.not_mem_nil, or_false] at hk
    rcases hk with rfl | rfl | rfl | rfl | rfl | rfl
    · rw [lba] at hv
      obtain ⟨x, _, hfx⟩ := Option.map_eq_some'.mp hv
      rw [← hfx]
      simp [battVal]
    · rw [lbs] at hv
      obtain ⟨x, _, hfx⟩ := Option.map_eq_some'.mp hv
      rw [← hfx]
      simp [batsocVal]
    · rw [lbm] at hv
      obtain ⟨x, _, hfx⟩ := Option.map_eq_some'.mp hv
      rw [← hfx]
      simp [quadVal]
    · rw [llv] at hv
      obtain ⟨x, _, hfx⟩ := Option.map_eq_some'.mp hv
      rw [← hfx]
      simp [quadVal]
    · rw [lbt] at hv
      obtain ⟨x, _, hfx⟩ := Option.map_eq_some'.mp hv
      rw [← hfx]
      simp [btempVal]
    · rw [lbc] at hv
      obtain ⟨x, _, hfx⟩ := Option.map_eq_some'.mp hv
      rw [← hfx]
      simp [batcelVal]

/-- C10 witness: on a `Batsoc`-only payload, the scalar keys are
present, `Estate` carries the no-value marker, `Batt` is omitted, and
the present `Batsoc` value is not the no-value marker. -/
theorem c10_scalar_present_groups_omitted_witness :
    containsKey (buildRecord ⟨none, none, none, none, none, none, none,
        some (1, 2, 3), none, none, none, none⟩) ("CommVer") = true ∧
    lookupR (buildRecord ⟨none, none, none, none, none, none, none,
        some (1, 2, 3), none, none, none, none⟩) ("Estate") = some FVal.vnone ∧
    lookupR (buildRecord ⟨none, none, none, none, none, none, none,
        some (1, 2, 3), none, none, none, none⟩) ("Batt") = none ∧
    batsocVal (1, 2, 3) ≠ FVal.vnone := by
  have h := c10_scalar_present_groups_omitted
    "\x7b\x22Batsoc\x22:[[1,2,3]]\x7d"
    (buildRecord ⟨none, none, none, none, none, none, none,
      some (1, 2, 3), none, none, none, none⟩) (by decide)
  exact ⟨h.1.1, h.2.2.2.2.1 (by decide), h.2.2.2.2.2.2.2.1 (by decide),
    h.2.2.2.2.2.2.2.2.2.2.2.2.2 ("Batsoc") (by decide) _ (by decide)⟩

end Felicity
